import Mathlib

/-!
Shallow embedding of the offline-first data synchronization engine
(`DataSyncManager` in `src/services/dataSync.ts`) of the voice-zen-dash
repository, together with theorems settling the specification claims
about it.

Modelling conventions:
* Timestamps and durations are `Int` (JS epoch milliseconds).
* Entity payloads (`data: any` in the source) are modelled by the opaque
  record `EntityData`, which exposes the two fields the engine itself
  reads: `dataId` (the `.id` used to build UPDATE/DELETE endpoints and
  cache keys) and `version` (read by `updateLocalCache`); `content`
  stands for the rest of the JSON value.
* The three IndexedDB object stores (`cache`, `sync-queue`, `conflicts`)
  are association lists keyed by their `keyPath`; `IDBObjectStore.put`
  is `putKeyed` (replace the entry with the same key, else append), and
  `getAll` returns records in ascending key order (`sortByKey`).
* The network (`fetch`) is an oracle `net : SyncQueueItem → NetResponse`
  supplied to the drain; issued requests are logged in the state so that
  theorems can talk about what was sent and in which order.
* Event dispatch (`window.dispatchEvent(new CustomEvent('data-sync', …))`)
  is an append-only event log in the state.
-/

/-- The closed set of entity types (`SyncQueueItem['entity']`). -/
inductive Entity where
  | task
  | transaction
  | budgetLimit
  | recurringTask
  | userPreferences
deriving DecidableEq, Repr

/-- The string each entity constructor denotes in the source union type. -/
def Entity.str : Entity → String
  | .task => "task"
  | .transaction => "transaction"
  | .budgetLimit => "budget-limit"
  | .recurringTask => "recurring-task"
  | .userPreferences => "user-preferences"

/-- The operation kinds (`SyncQueueItem['type']`). -/
inductive OpType where
  | CREATE
  | UPDATE
  | DELETE
deriving DecidableEq, Repr

def OpType.str : OpType → String
  | .CREATE => "CREATE"
  | .UPDATE => "UPDATE"
  | .DELETE => "DELETE"

/-- Queue item priorities. -/
inductive Priority where
  | high
  | medium
  | low
deriving DecidableEq, Repr

/-- Opaque entity payload (`data: any`). Only `.id` and `.version` are ever
read by the engine; `content` stands for the remaining JSON fields. -/
structure EntityData where
  dataId : String
  version : Option String
  content : Nat
deriving DecidableEq, Repr

/-- A field-level diff inside a conflict body (`ConflictData` in the
source); the field values are opaque to the engine and modelled as `Nat`. -/
structure ConflictData where
  field : String
  localValue : Nat
  serverValue : Nat
deriving DecidableEq, Repr

/-- `SyncQueueItem` from the source. -/
structure SyncQueueItem where
  id : String
  type : OpType
  entity : Entity
  data : EntityData
  localId : Option String
  timestamp : Int
  retryCount : Nat
  priority : Priority
deriving DecidableEq, Repr

/-- `CacheEntry` from the source. -/
structure CacheEntry where
  key : String
  data : EntityData
  timestamp : Int
  ttl : Int
  version : String
  lastSync : Option Int
deriving DecidableEq, Repr

/-- The conflict record built by `handleConflict`. `serverData` is optional
because the body the server sent may omit it. -/
structure ConflictRec where
  id : String
  syncItemId : String
  entity : Entity
  localData : EntityData
  serverData : Option EntityData
  fieldDiffs : List ConflictData
  timestamp : Int
deriving DecidableEq, Repr

/-- A parsed JSON response body, covering both the 2xx shape
(`conflict` / `data` / `serverData` / `conflicts`) and the error shape
(`message`); absent fields are `none` / `false` / `[]`. -/
structure ServerBody where
  conflict : Bool := false
  data : Option EntityData := none
  serverData : Option EntityData := none
  fieldDiffs : List ConflictData := []
  message : Option String := none
deriving DecidableEq, Repr

/-- Outcome of a `fetch` of one sync item: a 2xx response with a body, a
non-2xx response with a status and body, or a transport failure (the
promise rejected — caught by the `try/catch` in `processSyncItem`). -/
inductive NetResponse where
  | ok (body : ServerBody)
  | httpErr (status : Nat) (body : ServerBody)
  | transportFail
deriving DecidableEq, Repr

/-- The four values of the first argument of `notifySync`. -/
inductive EventType where
  | success
  | error
  | conflict
  | failed
deriving DecidableEq, Repr

/-- One dispatched `data-sync` event (type plus the fields of its payload
that the claims mention). -/
structure SyncEvent where
  etype : EventType
  entity : Entity
  opType : OpType
  message : Option String
deriving DecidableEq, Repr

/-- One HTTP request issued by `processSyncItem`'s `fetch` call; `auth` is
the bearer credential header value. -/
structure HttpRequest where
  endpoint : String
  method : String
  body : Option EntityData
  auth : String
deriving DecidableEq, Repr

/-- Endpoint/method/body triple computed by the `switch` in
`processSyncItem` before the `fetch`. -/
structure ReqSpec where
  endpoint : String
  method : String
  body : Option EntityData
deriving DecidableEq, Repr

/-- The whole `DataSyncManager` state: the flags, the three object
stores, and the two observation logs (events dispatched, requests sent). -/
structure SyncState where
  db : Bool
  isOnline : Bool
  syncInProgress : Bool
  cache : List CacheEntry
  syncQueue : List SyncQueueItem
  conflicts : List ConflictRec
  events : List SyncEvent
  requests : List HttpRequest
deriving DecidableEq, Repr

/-- `IDBObjectStore.put`: replace the record with the same key, else
append. -/
def putKeyed {α : Type} (key : α → String) (x : α) : List α → List α
  | [] => [x]
  | y :: ys => if key y = key x then x :: ys else y :: putKeyed key x ys

/-- `window.dispatchEvent(new CustomEvent('data-sync', …))` — append the
event to the log (`DataSyncManager.notifySync`). -/
def notifySync (t : EventType) (ent : Entity) (op : OpType)
    (msg : Option String) (s : SyncState) : SyncState :=
  { s with events := s.events ++ [⟨t, ent, op, msg⟩] }

/-- `DataSyncManager.updateLocalCache`: a no-op when the store is
unavailable, else a put of a fresh `CacheEntry` with a 24-hour TTL. -/
def updateLocalCache (entity : Entity) (data : EntityData) (id : String)
    (now : Int) (s : SyncState) : SyncState :=
  if !s.db then s
  else
    let entry : CacheEntry :=
      { key := entity.str ++ "-" ++ id
        data := data
        timestamp := now
        ttl := 24 * 60 * 60 * 1000
        version := data.version.getD "1.0"
        lastSync := if s.isOnline then some now else none }
    { s with cache := putKeyed CacheEntry.key entry s.cache }

/-- `DataSyncManager.getFromCache`: `none` models the `null` returned for
a missing store, a missing entry, or an expired entry; the freshness test
is the source's strict `Date.now() - entry.timestamp < entry.ttl`. -/
def getFromCache (entity : Entity) (id : String) (now : Int)
    (s : SyncState) : Option EntityData :=
  if !s.db then none
  else
    match s.cache.find? (fun e => e.key == entity.str ++ "-" ++ id) with
    | some entry =>
        if now - entry.timestamp < entry.ttl then some entry.data else none
    | none => none

/-- `DataSyncManager.addToSyncQueue` (the authoritative IndexedDB put; the
in-memory `this.syncQueue` mirror is not modelled, the drain reads the
store). -/
def addToSyncQueue (item : SyncQueueItem) (s : SyncState) : SyncState :=
  if !s.db then s
  else { s with syncQueue := putKeyed SyncQueueItem.id item s.syncQueue }

/-- The queue item id generated by `performOptimisticUpdate`:
`\x7b entity \x7d-\x7b operation \x7d-\x7b Date.now() \x7d`. -/
def queueItemId (entity : Entity) (operation : OpType) (now : Int) : String :=
  entity.str ++ "-" ++ operation.str ++ "-" ++ toString now

/-- The `SyncQueueItem` literal built by `performOptimisticUpdate`:
timestamp-derived id, the call's payload, the provisional local id, a
zero attempt count, and priority high for DELETE, medium otherwise. -/
def enqueuedItem (entity : Entity) (operation : OpType) (data : EntityData)
    (localId : Option String) (now : Int) (rand : String) : SyncQueueItem :=
  { id := queueItemId entity operation now
    type := operation
    entity := entity
    data := data
    localId := some (localId.getD ("temp-" ++ toString now ++ "-" ++ rand))
    timestamp := now
    retryCount := 0
    priority := if operation = .DELETE then .high else .medium }

/-- Result record of `performOptimisticUpdate`. -/
structure ApplyResult where
  success : Bool
  localData : EntityData
deriving DecidableEq, Repr

/-- `DataSyncManager.performOptimisticUpdate` up to and including its
synchronous return. `now` is `Date.now()` and `rand` the random suffix of
the provisional id. The `setTimeout(() => this.processSyncQueue(), 100)`
issued when online is fire-and-forget and runs after the return, so it is
a separate transition (`processSyncQueue`) and not part of this function. -/
def performOptimisticUpdate (entity : Entity) (operation : OpType)
    (data : EntityData) (localId : Option String) (now : Int) (rand : String)
    (s : SyncState) : ApplyResult × SyncState :=
  let optimisticId := localId.getD ("temp-" ++ toString now ++ "-" ++ rand)
  let s1 := updateLocalCache entity data optimisticId now s
  let syncItem : SyncQueueItem :=
    { id := queueItemId entity operation now
      type := operation
      entity := entity
      data := data
      localId := some optimisticId
      timestamp := now
      retryCount := 0
      priority := if operation = .DELETE then .high else .medium }
  let s2 := addToSyncQueue syncItem s1
  ({ success := true, localData := data }, s2)

/-- The endpoint/method/body `switch` of `processSyncItem`. Only `task`
and `transaction` have cases; the others fall through the
`// Add other entities...` comment leaving `endpoint = ''`, `method = ''`,
`body = null`. -/
def mapRequest (item : SyncQueueItem) : ReqSpec :=
  match item.entity with
  | .task =>
      match item.type with
      | .CREATE => ⟨"/api/tasks", "POST", some item.data⟩
      | .UPDATE => ⟨"/api/tasks/" ++ item.data.dataId, "PATCH", some item.data⟩
      | .DELETE => ⟨"/api/tasks/" ++ item.data.dataId, "DELETE", none⟩
  | .transaction =>
      match item.type with
      | .CREATE => ⟨"/api/budget/transactions", "POST", some item.data⟩
      | .UPDATE =>
          ⟨"/api/budget/transactions/" ++ item.data.dataId, "PATCH", some item.data⟩
      | .DELETE =>
          ⟨"/api/budget/transactions/" ++ item.data.dataId, "DELETE", none⟩
  | _ => ⟨"", "", none⟩

/-- `DataSyncManager.removeFromSyncQueue`: `IDBObjectStore.delete` by id. -/
def removeFromSyncQueue (id : String) (s : SyncState) : SyncState :=
  if !s.db then s
  else { s with syncQueue := s.syncQueue.filter (fun item => item.id ≠ id) }

/-- `DataSyncManager.incrementRetryCount`: bump `retryCount`; at 5 the item
is removed and a `failed` event dispatched, below 5 the bumped item is put
back into the store. -/
def incrementRetryCount (item : SyncQueueItem) (s : SyncState) : SyncState :=
  if !s.db then s
  else
    let item1 := { item with retryCount := item.retryCount + 1 }
    if 5 ≤ item1.retryCount then
      notifySync .failed item.entity item.type (some "Max retries exceeded")
        (removeFromSyncQueue item.id s)
    else
      { s with syncQueue := putKeyed SyncQueueItem.id item1 s.syncQueue }

/-- `DataSyncManager.handleConflict`: build a conflict record with a
timestamp-derived id, put it into the `conflicts` store (when available),
and dispatch a `conflict` event. The sync-queue item is not touched. -/
def handleConflict (now : Int) (item : SyncQueueItem) (body : ServerBody)
    (s : SyncState) : SyncState :=
  let c : ConflictRec :=
    { id := "conflict-" ++ toString now
      syncItemId := item.id
      entity := item.entity
      localData := item.data
      serverData := body.serverData
      fieldDiffs := body.fieldDiffs
      timestamp := now }
  let s1 :=
    if s.db then { s with conflicts := putKeyed ConflictRec.id c s.conflicts }
    else s
  notifySync .conflict item.entity item.type none s1

/-- `DataSyncManager.processSyncItem`. When the `switch` left `method`
empty (an unmapped entity), `fetch(endpoint, \x7b method: '' \x7d)` throws a
`TypeError` before any request is sent (an empty string is not a valid
method token), so the `catch` runs `incrementRetryCount` and nothing is
logged in `requests`. Otherwise one request is logged and the response is
handled exactly as the source's branch ladder does. -/
def processSyncItem (net : SyncQueueItem → NetResponse) (now : Int)
    (token : String) (s : SyncState) (item : SyncQueueItem) : SyncState :=
  let spec := mapRequest item
  if spec.method = "" then
    incrementRetryCount item s
  else
    let req : HttpRequest :=
      { endpoint := spec.endpoint
        method := spec.method
        body := spec.body
        auth := "Bearer " ++ token }
    let s1 := { s with requests := s.requests ++ [req] }
    match net item with
    | .ok body =>
        if body.conflict then
          handleConflict now item body s1
        else
          let s2 := removeFromSyncQueue item.id s1
          let s3 :=
            match body.data with
            | some d => updateLocalCache item.entity d d.dataId now s2
            | none => s2
          notifySync .success item.entity item.type none s3
    | .httpErr status body =>
        if status = 409 then
          handleConflict now item body s1
        else if 500 ≤ status then
          incrementRetryCount item s1
        else
          notifySync .error item.entity item.type
            (some (body.message.getD "Sync failed"))
            (removeFromSyncQueue item.id s1)
    | .transportFail => incrementRetryCount item s1

/-- The priority weights of the drain's comparator
(`\x7b high: 3, medium: 2, low: 1 \x7d`). -/
def prioVal : Priority → Nat
  | .high => 3
  | .medium => 2
  | .low => 1

/-- `comparator(a, b) < 0`: `a` sorts strictly before `b` — higher
priority first, then earlier `timestamp` first. -/
def itemBefore (a b : SyncQueueItem) : Bool :=
  prioVal b.priority < prioVal a.priority ||
    (prioVal a.priority == prioVal b.priority && a.timestamp < b.timestamp)

/-- Stable insertion w.r.t. `itemBefore`: `x` goes after every element
that sorts strictly before it, and before the rest (so elements tied with
`x` that were earlier in the list stay ahead of it). -/
def insertOrd (x : SyncQueueItem) : List SyncQueueItem → List SyncQueueItem
  | [] => [x]
  | y :: ys => if itemBefore y x then y :: insertOrd x ys else x :: y :: ys

/-- The stable sort `items.sort(comparator)` of the drain. JS `sort` is
stable, so the comparator plus the input order determine the output
uniquely; insertion sort realises it. -/
def sortItems : List SyncQueueItem → List SyncQueueItem
  | [] => []
  | x :: xs => insertOrd x (sortItems xs)

/-- Lexicographic order on character lists by code point — the order
IndexedDB uses on string keys. -/
def charListLt : List Char → List Char → Bool
  | [], [] => false
  | [], _ :: _ => true
  | _ :: _, [] => false
  | a :: as, b :: bs =>
    if a.toNat < b.toNat then true
    else if b.toNat < a.toNat then false
    else charListLt as bs

/-- `a` sorts strictly before `b` as an IndexedDB string key. -/
def strLt (a b : String) : Bool := charListLt a.data b.data

/-- Stable insertion by ascending primary key (`id`); `getAll` on an
IndexedDB store yields records in key order. Keys in a store are unique
so ties do not occur. -/
def insertById (x : SyncQueueItem) : List SyncQueueItem → List SyncQueueItem
  | [] => [x]
  | y :: ys => if strLt y.id x.id then y :: insertById x ys else x :: y :: ys

/-- `getAllFromStore` on the sync-queue store: the records in ascending
key order. -/
def sortByKey : List SyncQueueItem → List SyncQueueItem
  | [] => []
  | x :: xs => insertById x (sortByKey xs)

/-- `DataSyncManager.processSyncQueue`: the single-flight guard, then one
pass over a snapshot of the store sorted by the priority/timestamp
comparator, processing items strictly sequentially. -/
def processSyncQueue (net : SyncQueueItem → NetResponse) (now : Int)
    (token : String) (s : SyncState) : SyncState :=
  if s.syncInProgress || !s.isOnline || !s.db then s
  else
    let items := sortByKey s.syncQueue
    let sorted := sortItems items
    let s1 := sorted.foldl (processSyncItem net now token)
      { s with syncInProgress := true }
    { s1 with syncInProgress := false }

/-- The resolution argument of `resolveConflict`; the constructors carry a
`Res` suffix because `local` is reserved. -/
inductive Resolution where
  | localRes
  | serverRes
  | mergeRes
deriving DecidableEq, Repr

/-- `DataSyncManager.resolveConflict` up to (excluding) its final
`processSyncQueue` call: look the conflict up, compute the resolved
payload, rewrite the originating queue item with it and a zero retry
count, and delete the conflict record. In the `server` branch the source
assigns `conflict.serverData` verbatim; when the stored record has no
server value that assigns `undefined`, which `EntityData` cannot
represent, so that (never-exercised-by-the-claims) corner is folded to
the local value here and theorems about the `server` branch assume
`serverData` is present. -/
def resolveConflictCore (conflictId : String) (resolution : Resolution)
    (mergedData : Option EntityData) (s : SyncState) : SyncState :=
  if !s.db then s
  else
    match s.conflicts.find? (fun c => c.id == conflictId) with
    | none => s
    | some c =>
        let finalData :=
          match resolution with
          | .serverRes => c.serverData.getD c.localData
          | .mergeRes => mergedData.getD c.localData
          | .localRes => c.localData
        let s1 :=
          match s.syncQueue.find? (fun j => j.id == c.syncItemId) with
          | some syncItem =>
              let updated := { syncItem with data := finalData, retryCount := 0 }
              { s with syncQueue := putKeyed SyncQueueItem.id updated s.syncQueue }
          | none => s
        { s1 with conflicts := s1.conflicts.filter (fun d => d.id ≠ conflictId) }

/-- `DataSyncManager.resolveConflict`: the core rewrite followed by the
immediate drain (`await this.processSyncQueue()`). -/
def resolveConflict (net : SyncQueueItem → NetResponse) (now : Int)
    (token : String) (conflictId : String) (resolution : Resolution)
    (mergedData : Option EntityData) (s : SyncState) : SyncState :=
  processSyncQueue net now token (resolveConflictCore conflictId resolution mergedData s)

/-- Count of events selected by `p` in a log. -/
def countEvents (p : SyncEvent → Bool) (evs : List SyncEvent) : Nat :=
  (evs.filter p).length

/-- The specification's `sync-failed` notification corresponds to the two
failure-shaped `notifySync` types of the source: `error` (permanent 4xx)
and `failed` (retry ceiling). -/
def isFailureEvent (e : SyncEvent) : Bool :=
  e.etype == .error || e.etype == .failed

/-- The queue item with its attempt count bumped (`item.retryCount++`). -/
def bumpRetry (item : SyncQueueItem) : SyncQueueItem :=
  { item with retryCount := item.retryCount + 1 }

/-- The order the drain's comparator establishes, as a relation: priority
descending, then enqueue timestamp ascending. -/
def queueOrdered (a b : SyncQueueItem) : Prop :=
  prioVal b.priority ≤ prioVal a.priority ∧
    (prioVal a.priority = prioVal b.priority → a.timestamp ≤ b.timestamp)

/-- The resolved payload exactly as the claim about `resolveConflict`
words it: the local value for `local`, the server value for `server`, the
caller-supplied merged data (falling back to the local value if omitted)
for `merge`. Stated from the spec so the source's behaviour can be
compared against it. -/
def specResolvedPayload (res : Resolution) (localV sv : EntityData)
    (mergedData : Option EntityData) : EntityData :=
  match res with
  | .localRes => localV
  | .serverRes => sv
  | .mergeRes => mergedData.getD localV

/-! ### Concrete fixtures used by witnesses and counterexamples -/

def exData1 : EntityData := ⟨"e1", none, 10⟩

def exData2 : EntityData := ⟨"e2", none, 20⟩

def exData3 : EntityData := ⟨"e3", none, 30⟩

/-- Fresh state: store available, online, not draining, everything empty. -/
def exState0 : SyncState := ⟨true, true, false, [], [], [], [], []⟩

def exItemLow : SyncQueueItem := ⟨"a", .CREATE, .task, exData1, none, 1, 0, .low⟩

def exItemHigh : SyncQueueItem := ⟨"b", .CREATE, .task, exData2, none, 2, 0, .high⟩

def exItemMed : SyncQueueItem := ⟨"c", .CREATE, .task, exData3, none, 3, 0, .medium⟩

/-- Queue holding a low-, a high- and a medium-priority item, enqueued in
that order. -/
def exStateQ : SyncState := ⟨true, true, false, [], [exItemLow, exItemHigh, exItemMed], [], [], []⟩

/-- A server that accepts everything with a plain 2xx. -/
def exOkNet : SyncQueueItem → NetResponse := fun _ => .ok {}

def exItemX : SyncQueueItem := ⟨"x", .CREATE, .task, exData1, none, 1, 0, .medium⟩

/-- A server answering 503 to everything. -/
def exNet503 : SyncQueueItem → NetResponse := fun _ => .httpErr 503 {}

def exState503 : SyncState := ⟨true, true, false, [], [exItemX], [], [], []⟩

/-- A server answering 409 with a server value to everything. -/
def exNet409 : SyncQueueItem → NetResponse := fun _ => .httpErr 409 { serverData := some exData2 }

def exState409 : SyncState := ⟨true, true, false, [], [exItemX], [], [], []⟩

/-- A server answering 422 with a validation message to everything. -/
def exNet422 : SyncQueueItem → NetResponse :=
  fun _ => .httpErr 422 { message := some "Title is required" }

def exBudgetItem : SyncQueueItem := ⟨"p", .CREATE, .budgetLimit, exData1, none, 1, 0, .medium⟩

def exRecurringItem : SyncQueueItem := ⟨"q", .UPDATE, .recurringTask, exData1, none, 1, 0, .medium⟩

def exPrefsItem : SyncQueueItem := ⟨"r", .DELETE, .userPreferences, exData1, none, 1, 0, .high⟩

def exTaskUpd : SyncQueueItem := ⟨"u", .UPDATE, .task, exData1, none, 1, 0, .medium⟩

def exTaskDel : SyncQueueItem := ⟨"v", .DELETE, .task, exData1, none, 1, 0, .high⟩

def exTransCre : SyncQueueItem := ⟨"w", .CREATE, .transaction, exData1, none, 1, 0, .medium⟩

/-- A stored conflict whose originating queue item is `exItemX`. -/
def exConflict : ConflictRec := ⟨"conflict-77", "x", .task, exData1, some exData2, [], 77⟩

def exStateC5 : SyncState := ⟨true, true, false, [], [exItemX], [exConflict], [], []⟩

/-- Queue holding only the unmapped budget-limit item. -/
def exStateB : SyncState := ⟨true, true, false, [], [exBudgetItem], [], [], []⟩

/-- A state whose single-flight flag is set (a drain is in progress). -/
def exStateBusy : SyncState := ⟨true, true, true, [], [exItemX], [], [], []⟩

/-- A concrete cache entry (written at 0 with a 100 ms TTL). -/
def exEntry : CacheEntry := ⟨"task-e1", exData1, 0, 100, "1.0", none⟩

/-! ### Helper lemmas about the store primitives -/

theorem find?_putKeyed_eq {α : Type} (key : α → String) (x : α) (l : List α)
    (k : String) (hk : key x = k) :
    (putKeyed key x l).find? (fun y => key y == k) = some x := by
  induction l with
  | nil => simp [putKeyed, List.find?, hk]
  | cons y ys ih =>
    by_cases h : key y = key x
    · simp [putKeyed, h, List.find?, hk]
    · have hyk : ¬ key y = k := fun hc => h (hc.trans hk.symm)
      simp [putKeyed, h, List.find?, hyk, ih]

theorem find?_putKeyed_ne {α : Type} (key : α → String) (x : α) (l : List α)
    (k : String) (hk : key x ≠ k) :
    (putKeyed key x l).find? (fun y => key y == k) = l.find? (fun y => key y == k) := by
  have hxk : (key x == k) = false := beq_eq_false_iff_ne.mpr hk
  induction l with
  | nil => simp [putKeyed, List.find?, hxk]
  | cons y ys ih =>
    by_cases h : key y = key x
    · have hyk : (key y == k) = false := beq_eq_false_iff_ne.mpr (by rw [h]; exact hk)
      simp [putKeyed, h, List.find?, hxk, hyk]
    · by_cases hyk : key y = k
      · have hyk2 : (key y == k) = true := beq_iff_eq.mpr hyk
        simp [putKeyed, h, List.find?, hyk2]
      · have hyk2 : (key y == k) = false := beq_eq_false_iff_ne.mpr hyk
        simp [putKeyed, h, List.find?, hyk2, ih]

theorem putKeyed_fresh {α : Type} (key : α → String) (x : α) (l : List α)
    (h : ∀ y ∈ l, key y ≠ key x) : putKeyed key x l = l ++ [x] := by
  induction l with
  | nil => rfl
  | cons y ys ih =>
    have hy : key y ≠ key x := h y (by simp)
    simp [putKeyed, hy]
    exact ih (fun z hz => h z (by simp [hz]))

theorem putKeyed_append_last {α : Type} (key : α → String) (x z : α) (l : List α)
    (h : ∀ y ∈ l, key y ≠ key x) (hz : key z = key x) :
    putKeyed key x (l ++ [z]) = l ++ [x] := by
  induction l with
  | nil => simp [putKeyed, hz]
  | cons y ys ih =>
    have hy : key y ≠ key x := h y (by simp)
    simp [putKeyed, hy]
    exact ih (fun w hw => h w (by simp [hw]))

theorem find?_filter_ne_id (l : List SyncQueueItem) (k : String) :
    (l.filter (fun item => item.id ≠ k)).find? (fun j => j.id == k) = none := by
  rw [List.find?_eq_none]
  intro x hx
  have := List.of_mem_filter hx
  simpa using this

theorem countEvents_append (p : SyncEvent → Bool) (evs : List SyncEvent) (e : SyncEvent) :
    countEvents p (evs ++ [e]) = countEvents p evs + (if p e then 1 else 0) := by
  simp [countEvents, List.filter_append]
  by_cases h : p e <;> simp [h]

theorem queueOrdered_of_itemBefore {a b : SyncQueueItem}
    (h : itemBefore a b = true) : queueOrdered a b := by
  simp only [itemBefore, Bool.or_eq_true, Bool.and_eq_true, decide_eq_true_eq,
    beq_iff_eq] at h
  unfold queueOrdered
  rcases h with h | ⟨h1, h2⟩
  · omega
  · omega

theorem queueOrdered_of_not_itemBefore {a b : SyncQueueItem}
    (h : itemBefore a b = false) : queueOrdered b a := by
  have h2 : ¬ (prioVal b.priority < prioVal a.priority ∨
      (prioVal a.priority = prioVal b.priority ∧ a.timestamp < b.timestamp)) := by
    intro hc
    have h3 : itemBefore a b = true := by
      simp only [itemBefore, Bool.or_eq_true, Bool.and_eq_true, decide_eq_true_eq,
        beq_iff_eq]
      exact hc
    rw [h] at h3
    exact Bool.noConfusion h3
  unfold queueOrdered
  omega

theorem queueOrdered_trans {a b c : SyncQueueItem}
    (h1 : queueOrdered a b) (h2 : queueOrdered b c) : queueOrdered a c := by
  unfold queueOrdered at h1 h2 ⊢
  omega

theorem insertOrd_perm (x : SyncQueueItem) (l : List SyncQueueItem) :
    (insertOrd x l).Perm (x :: l) := by
  induction l with
  | nil => exact List.Perm.refl [x]
  | cons y ys ih =>
    by_cases h : itemBefore y x = true
    · simp only [insertOrd, h, if_true]
      exact (ih.cons y).trans (List.Perm.swap x y ys)
    · have h2 : itemBefore y x = false := by
        revert h
        cases itemBefore y x <;> simp
      simp only [insertOrd, h2, Bool.false_eq_true, if_false]
      exact List.Perm.refl _

theorem sortItems_perm (l : List SyncQueueItem) : (sortItems l).Perm l := by
  induction l with
  | nil => exact List.Perm.nil
  | cons x xs ih => exact (insertOrd_perm x (sortItems xs)).trans (ih.cons x)

theorem pairwise_insertOrd (x : SyncQueueItem) (l : List SyncQueueItem)
    (h : l.Pairwise queueOrdered) : (insertOrd x l).Pairwise queueOrdered := by
  induction l with
  | nil => simp [insertOrd]
  | cons y ys ih =>
    rcases List.pairwise_cons.mp h with ⟨hy, hys⟩
    by_cases hb : itemBefore y x = true
    · simp only [insertOrd, hb, if_true]
      refine List.pairwise_cons.mpr ⟨?_, ih hys⟩
      intro z hz
      have hz2 : z = x ∨ z ∈ ys := by
        have h3 := (insertOrd_perm x ys).mem_iff.mp hz
        simpa using h3
      rcases hz2 with rfl | hz2
      · exact queueOrdered_of_itemBefore hb
      · exact hy z hz2
    · have hb2 : itemBefore y x = false := by
        revert hb
        cases itemBefore y x <;> simp
      simp only [insertOrd, hb2, Bool.false_eq_true, if_false]
      refine List.pairwise_cons.mpr ⟨?_, h⟩
      intro z hz
      rcases List.mem_cons.mp hz with rfl | hz2
      · exact queueOrdered_of_not_itemBefore hb2
      · exact queueOrdered_trans (queueOrdered_of_not_itemBefore hb2) (hy z hz2)

theorem sortItems_pairwise (l : List SyncQueueItem) :
    (sortItems l).Pairwise queueOrdered := by
  induction l with
  | nil => simp [sortItems]
  | cons x xs ih => exact pairwise_insertOrd x (sortItems xs) ih

theorem addToSyncQueue_cache (item : SyncQueueItem) (s : SyncState) :
    (addToSyncQueue item s).cache = s.cache := by
  unfold addToSyncQueue
  split <;> rfl

theorem addToSyncQueue_db (item : SyncQueueItem) (s : SyncState) :
    (addToSyncQueue item s).db = s.db := by
  unfold addToSyncQueue
  split <;> rfl

theorem getFromCache_ext (entity : Entity) (id : String) (now : Int)
    (s s2 : SyncState) (hdb : s2.db = s.db) (hc : s2.cache = s.cache) :
    getFromCache entity id now s2 = getFromCache entity id now s := by
  unfold getFromCache
  rw [hdb, hc]

theorem getFromCache_updateLocalCache (entity : Entity) (data : EntityData)
    (id : String) (now : Int) (s : SyncState) (hdb : s.db = true) :
    getFromCache entity id now (updateLocalCache entity data id now s) =
      some data := by
  unfold updateLocalCache getFromCache
  simp only [hdb, Bool.not_true, Bool.false_eq_true, if_false]
  rw [find?_putKeyed_eq CacheEntry.key _ s.cache (entity.str ++ "-" ++ id) rfl]
  simp

/-- Claim C1: with the local store available, `performOptimisticUpdate`
returns `\x7b success := true, localData := payload \x7d` — a value computed
with no dependence on the network or on connectivity — and a
`getFromCache` read of that entity immediately afterwards returns the
just-applied payload. -/
theorem claim_C1_optimistic_apply (s : SyncState) (entity : Entity)
    (operation : OpType) (data : EntityData) (localId : Option String)
    (now : Int) (rand : String) (hdb : s.db = true) :
    (performOptimisticUpdate entity operation data localId now rand s).1 =
      { success := true, localData := data } ∧
    getFromCache entity (localId.getD ("temp-" ++ toString now ++ "-" ++ rand)) now
      (performOptimisticUpdate entity operation data localId now rand s).2 =
      some data := by
  constructor
  · rfl
  · exact (getFromCache_ext entity _ now
        (updateLocalCache entity data
          (localId.getD ("temp-" ++ toString now ++ "-" ++ rand)) now s) _
        (addToSyncQueue_db _ _) (addToSyncQueue_cache _ _)).trans
      (getFromCache_updateLocalCache entity data _ now s hdb)

/-- Witness for C1: a concrete CREATE of a task payload on the fresh
state. -/
theorem claim_C1_optimistic_apply_witness :
    exState0.db = true ∧
    ((performOptimisticUpdate .task .CREATE exData1 none 100 "r" exState0).1 =
      { success := true, localData := exData1 } ∧
    getFromCache .task
        ((none : Option String).getD ("temp-" ++ toString (100 : Int) ++ "-" ++ "r")) 100
      (performOptimisticUpdate .task .CREATE exData1 none 100 "r" exState0).2 =
      some exData1) :=
  ⟨rfl, claim_C1_optimistic_apply exState0 .task .CREATE exData1 none 100 "r" rfl⟩

/-- Claim C2: the drain's stable sort arranges any set of pending items
into (priority descending, enqueue-timestamp ascending) order, and
concretely a queue holding [low, high, medium] items enqueued in that
order sends its requests in the order [high, medium, low]. -/
theorem claim_C2_drain_order :
    (∀ items : List SyncQueueItem,
        (sortItems items).Perm items ∧ (sortItems items).Pairwise queueOrdered) ∧
    (processSyncQueue exOkNet 50 "tok" exStateQ).requests.map HttpRequest.body =
      [some exData2, some exData3, some exData1] := by
  refine ⟨fun items => ⟨sortItems_perm items, sortItems_pairwise items⟩, ?_⟩
  decide

theorem processSyncItem_transient (net : SyncQueueItem → NetResponse) (now : Int)
    (token : String) (s : SyncState) (item : SyncQueueItem)
    (hmapped : (mapRequest item).method ≠ "")
    (htrans : (∃ status body, net item = .httpErr status body ∧ 500 ≤ status) ∨
      net item = .transportFail) :
    processSyncItem net now token s item =
      incrementRetryCount item
        { s with requests := s.requests ++
            [⟨(mapRequest item).endpoint, (mapRequest item).method,
              (mapRequest item).body, "Bearer " ++ token⟩] } := by
  simp only [processSyncItem]
  rw [if_neg hmapped]
  rcases htrans with ⟨status, body, hresp, h500⟩ | hresp
  · simp only [hresp]
    rw [if_neg (by omega : ¬ status = 409)]
    rw [if_pos h500]
  · simp only [hresp]

theorem incrementRetryCount_lt (item : SyncQueueItem) (s : SyncState)
    (hdb : s.db = true) (hlt : item.retryCount + 1 < 5) :
    incrementRetryCount item s =
      { s with syncQueue := putKeyed SyncQueueItem.id (bumpRetry item) s.syncQueue } := by
  simp only [incrementRetryCount]
  rw [if_neg (by simp [hdb])]
  rw [if_neg (by omega : ¬ 5 ≤ item.retryCount + 1)]
  rfl

theorem incrementRetryCount_ge (item : SyncQueueItem) (s : SyncState)
    (hdb : s.db = true) (hge : 5 ≤ item.retryCount + 1) :
    incrementRetryCount item s =
      notifySync .failed item.entity item.type (some "Max retries exceeded")
        (removeFromSyncQueue item.id s) := by
  simp only [incrementRetryCount]
  rw [if_neg (by simp [hdb])]
  rw [if_pos hge]

/-- Claim C3: a transiently failing item (HTTP 5xx or transport error) has
its attempt count incremented and stays queued for the next drain while
the count is below 5; when it reaches 5 the item is removed and a
failure event is emitted exactly once. Concretely, five consecutive
503-answered drains of a single-item queue empty the queue and leave
exactly one failure event in the log. -/
theorem claim_C3_transient_retry (net : SyncQueueItem → NetResponse)
    (now : Int) (token : String) (s : SyncState) (item : SyncQueueItem)
    (hdb : s.db = true)
    (hmapped : (mapRequest item).method ≠ "")
    (htrans : (∃ status body, net item = .httpErr status body ∧ 500 ≤ status) ∨
      net item = .transportFail) :
    (item.retryCount + 1 < 5 →
      (processSyncItem net now token s item).syncQueue.find?
          (fun j => j.id == item.id) =
        some { item with retryCount := item.retryCount + 1 } ∧
      countEvents isFailureEvent (processSyncItem net now token s item).events =
        countEvents isFailureEvent s.events) ∧
    (5 ≤ item.retryCount + 1 →
      (∀ j ∈ (processSyncItem net now token s item).syncQueue, j.id ≠ item.id) ∧
      countEvents isFailureEvent (processSyncItem net now token s item).events =
        countEvents isFailureEvent s.events + 1) ∧
    (Nat.iterate (processSyncQueue exNet503 9 "t") 5 exState503).syncQueue = [] ∧
    countEvents isFailureEvent
      (Nat.iterate (processSyncQueue exNet503 9 "t") 5 exState503).events = 1 := by
  rw [processSyncItem_transient net now token s item hmapped htrans]
  refine ⟨?_, ?_, by decide, by decide⟩
  · intro hlt
    rw [incrementRetryCount_lt item
      { s with requests := s.requests ++
          [⟨(mapRequest item).endpoint, (mapRequest item).method,
            (mapRequest item).body, "Bearer " ++ token⟩] } hdb hlt]
    exact ⟨find?_putKeyed_eq SyncQueueItem.id _ _ item.id rfl, rfl⟩
  · intro hge
    rw [incrementRetryCount_ge item
      { s with requests := s.requests ++
          [⟨(mapRequest item).endpoint, (mapRequest item).method,
            (mapRequest item).body, "Bearer " ++ token⟩] } hdb hge]
    constructor
    · intro j hj
      simp only [notifySync, removeFromSyncQueue] at hj
      rw [if_neg (by simp [hdb])] at hj
      exact of_decide_eq_true (List.mem_filter.mp hj).2
    · simp only [notifySync, removeFromSyncQueue]
      rw [if_neg (by simp [hdb])]
      rw [countEvents_append]
      simp [isFailureEvent]

/-- Witness for C3: a 503 answer for a queued task item with 4 prior
attempts, on the single-item fixture state. -/
theorem claim_C3_transient_retry_witness :
    (exState503.db = true ∧ (mapRequest exItemX).method ≠ "" ∧
      ((∃ status body, exNet503 exItemX = .httpErr status body ∧ 500 ≤ status) ∨
        exNet503 exItemX = .transportFail)) ∧
    ((exItemX.retryCount + 1 < 5 →
      (processSyncItem exNet503 9 "t" exState503 exItemX).syncQueue.find?
          (fun j => j.id == exItemX.id) =
        some { exItemX with retryCount := exItemX.retryCount + 1 } ∧
      countEvents isFailureEvent
          (processSyncItem exNet503 9 "t" exState503 exItemX).events =
        countEvents isFailureEvent exState503.events) ∧
    (5 ≤ exItemX.retryCount + 1 →
      (∀ j ∈ (processSyncItem exNet503 9 "t" exState503 exItemX).syncQueue,
        j.id ≠ exItemX.id) ∧
      countEvents isFailureEvent
          (processSyncItem exNet503 9 "t" exState503 exItemX).events =
        countEvents isFailureEvent exState503.events + 1) ∧
    (Nat.iterate (processSyncQueue exNet503 9 "t") 5 exState503).syncQueue = [] ∧
    countEvents isFailureEvent
      (Nat.iterate (processSyncQueue exNet503 9 "t") 5 exState503).events = 1) :=
  ⟨⟨rfl, by decide, Or.inl ⟨503, {}, rfl, by omega⟩⟩,
    claim_C3_transient_retry exNet503 9 "t" exState503 exItemX rfl (by decide)
      (Or.inl ⟨503, {}, rfl, by omega⟩)⟩

theorem processSyncItem_conflictSignal (net : SyncQueueItem → NetResponse)
    (now : Int) (token : String) (s : SyncState) (item : SyncQueueItem)
    (body : ServerBody)
    (hmapped : (mapRequest item).method ≠ "")
    (hsig : (net item = .ok body ∧ body.conflict = true) ∨
      net item = .httpErr 409 body) :
    processSyncItem net now token s item =
      handleConflict now item body
        { s with requests := s.requests ++
            [⟨(mapRequest item).endpoint, (mapRequest item).method,
              (mapRequest item).body, "Bearer " ++ token⟩] } := by
  simp only [processSyncItem]
  rw [if_neg hmapped]
  rcases hsig with ⟨hresp, hconf⟩ | hresp
  · simp only [hresp]
    rw [if_pos hconf]
  · simp only [hresp]
    simp only [if_true]

/-- Claim C4 is false on the code as stated: after a drain in which the
server answers 409, exactly one Conflict record exists, but the item has
not been removed from the active queue — the queue still holds it
unchanged. -/
theorem claim_C4_counterexample :
    (processSyncQueue exNet409 77 "t" exState409).syncQueue = [exItemX] ∧
    (processSyncQueue exNet409 77 "t" exState409).conflicts.length = 1 := by
  decide

/-- Claim C4 (amended): on a conflict signal (HTTP 409, or a 2xx body with
the conflict marker) exactly one Conflict record is appended for the item
(its id is derived from the timestamp, assumed fresh here), a conflict
event is dispatched, and the item is left in the active queue unchanged —
it is not removed, so subsequent drains will re-send it until the
conflict is resolved. -/
theorem claim_C4_amended (net : SyncQueueItem → NetResponse) (now : Int)
    (token : String) (s : SyncState) (item : SyncQueueItem) (body : ServerBody)
    (hdb : s.db = true)
    (hmapped : (mapRequest item).method ≠ "")
    (hfresh : ∀ c ∈ s.conflicts, c.id ≠ "conflict-" ++ toString now)
    (hsig : (net item = .ok body ∧ body.conflict = true) ∨
      net item = .httpErr 409 body) :
    (processSyncItem net now token s item).conflicts =
      s.conflicts ++ [⟨"conflict-" ++ toString now, item.id, item.entity,
        item.data, body.serverData, body.fieldDiffs, now⟩] ∧
    (processSyncItem net now token s item).syncQueue = s.syncQueue ∧
    (processSyncItem net now token s item).events =
      s.events ++ [⟨.conflict, item.entity, item.type, none⟩] := by
  rw [processSyncItem_conflictSignal net now token s item body hmapped hsig]
  simp only [handleConflict, notifySync]
  rw [if_pos (hdb : s.db = true)]
  refine ⟨?_, rfl, rfl⟩
  exact putKeyed_fresh ConflictRec.id _ s.conflicts
    (fun c hc => fun he => hfresh c hc he)

/-- Witness for C4 (amended): the 409-answering fixture drain. -/
theorem claim_C4_amended_witness :
    (exState409.db = true ∧ (mapRequest exItemX).method ≠ "" ∧
      (∀ c ∈ exState409.conflicts, c.id ≠ "conflict-" ++ toString (77 : Int)) ∧
      ((exNet409 exItemX = .ok { serverData := some exData2 } ∧
          ({ serverData := some exData2 } : ServerBody).conflict = true) ∨
        exNet409 exItemX = .httpErr 409 { serverData := some exData2 })) ∧
    ((processSyncItem exNet409 77 "t" exState409 exItemX).conflicts =
      exState409.conflicts ++ [⟨"conflict-" ++ toString (77 : Int), exItemX.id,
        exItemX.entity, exItemX.data,
        ({ serverData := some exData2 } : ServerBody).serverData,
        ({ serverData := some exData2 } : ServerBody).fieldDiffs, 77⟩] ∧
    (processSyncItem exNet409 77 "t" exState409 exItemX).syncQueue =
      exState409.syncQueue ∧
    (processSyncItem exNet409 77 "t" exState409 exItemX).events =
      exState409.events ++ [⟨.conflict, exItemX.entity, exItemX.type, none⟩]) :=
  ⟨⟨rfl, by decide, by decide, Or.inr rfl⟩,
    claim_C4_amended exNet409 77 "t" exState409 exItemX
      { serverData := some exData2 } rfl (by decide) (by decide) (Or.inr rfl)⟩

theorem find?_putKeyed_update (it : SyncQueueItem) (d : EntityData)
    (l : List SyncQueueItem) (k : String) (hk : it.id = k) :
    (putKeyed SyncQueueItem.id ({ it with data := d, retryCount := 0 }) l).find?
        (fun j => j.id == k) = some ({ it with data := d, retryCount := 0 }) :=
  find?_putKeyed_eq SyncQueueItem.id ({ it with data := d, retryCount := 0 }) l k hk

theorem find?_filter_ne_conflictId (l : List ConflictRec) (k : String) :
    (l.filter (fun d => d.id ≠ k)).find? (fun d => d.id == k) = none := by
  rw [List.find?_eq_none]
  intro x hx
  have h2 := List.of_mem_filter hx
  simpa using h2

/-- Claim C5: `resolveConflict` rewrites the originating queue item's
payload to the conflict's local value for `local`, its server value for
`server`, and the caller-supplied merged data (falling back to the local
value when omitted) for `merge`; it resets the item's attempt count to 0,
deletes the Conflict record, and then triggers a drain over the rewritten
state. -/
theorem claim_C5_resolve (net : SyncQueueItem → NetResponse) (now : Int)
    (token : String) (conflictId : String) (res : Resolution)
    (mergedData : Option EntityData) (s : SyncState) (c : ConflictRec)
    (it : SyncQueueItem) (sv : EntityData)
    (hdb : s.db = true)
    (hc : s.conflicts.find? (fun d => d.id == conflictId) = some c)
    (hit : s.syncQueue.find? (fun j => j.id == c.syncItemId) = some it)
    (hsv : c.serverData = some sv) :
    resolveConflict net now token conflictId res mergedData s =
      processSyncQueue net now token
        (resolveConflictCore conflictId res mergedData s) ∧
    (resolveConflictCore conflictId res mergedData s).syncQueue.find?
        (fun j => j.id == c.syncItemId) =
      some { it with data := specResolvedPayload res c.localData sv mergedData
                     retryCount := 0 } ∧
    (resolveConflictCore conflictId res mergedData s).conflicts.find?
        (fun d => d.id == conflictId) = none := by
  have hid : it.id = c.syncItemId := by
    have h3 := List.find?_some hit
    simpa using h3
  refine ⟨rfl, ?_, ?_⟩
  · simp only [resolveConflictCore]
    rw [if_neg (by simp [hdb])]
    cases res <;>
      · simp only [hc, hit]
        rw [find?_putKeyed_update it _ s.syncQueue c.syncItemId hid]
        simp [specResolvedPayload, hsv]
  · simp only [resolveConflictCore]
    rw [if_neg (by simp [hdb])]
    simp only [hc, hit]
    exact find?_filter_ne_conflictId s.conflicts conflictId

/-- Witness for C5: resolving the fixture 409 conflict with
`resolution = server`. -/
theorem claim_C5_resolve_witness :
    (exStateC5.db = true ∧
      exStateC5.conflicts.find? (fun d => d.id == "conflict-77") = some exConflict ∧
      exStateC5.syncQueue.find? (fun j => j.id == exConflict.syncItemId) =
        some exItemX ∧
      exConflict.serverData = some exData2) ∧
    (resolveConflict exOkNet 99 "t" "conflict-77" .serverRes none exStateC5 =
      processSyncQueue exOkNet 99 "t"
        (resolveConflictCore "conflict-77" .serverRes none exStateC5) ∧
    (resolveConflictCore "conflict-77" .serverRes none exStateC5).syncQueue.find?
        (fun j => j.id == exConflict.syncItemId) =
      some { exItemX with data := specResolvedPayload .serverRes exConflict.localData exData2 none
                          retryCount := 0 } ∧
    (resolveConflictCore "conflict-77" .serverRes none exStateC5).conflicts.find?
        (fun d => d.id == "conflict-77") = none) :=
  ⟨⟨rfl, by decide, by decide, rfl⟩,
    claim_C5_resolve exOkNet 99 "t" "conflict-77" .serverRes none exStateC5
      exConflict exItemX exData2 rfl (by decide) (by decide) rfl⟩

theorem processSyncItem_clientError (net : SyncQueueItem → NetResponse)
    (now : Int) (token : String) (s : SyncState) (item : SyncQueueItem)
    (status : Nat) (body : ServerBody)
    (hmapped : (mapRequest item).method ≠ "")
    (hresp : net item = .httpErr status body)
    (h409 : ¬ status = 409) (h5 : ¬ 500 ≤ status) :
    processSyncItem net now token s item =
      notifySync .error item.entity item.type
        (some (body.message.getD "Sync failed"))
        (removeFromSyncQueue item.id
          { s with requests := s.requests ++
              [⟨(mapRequest item).endpoint, (mapRequest item).method,
                (mapRequest item).body, "Bearer " ++ token⟩] }) := by
  simp only [processSyncItem]
  rw [if_neg hmapped]
  simp only [hresp]
  rw [if_neg h409, if_neg h5]

/-- Claim C6: a 4xx response other than 409 removes the item from the
queue after this single attempt — it is never put back, so never
retried — and immediately dispatches one failure event carrying the
server-provided message. -/
theorem claim_C6_client_error (net : SyncQueueItem → NetResponse)
    (now : Int) (token : String) (s : SyncState) (item : SyncQueueItem)
    (status : Nat) (body : ServerBody) (m : String)
    (hdb : s.db = true)
    (hmapped : (mapRequest item).method ≠ "")
    (hresp : net item = .httpErr status body)
    (hstatus : 400 ≤ status ∧ status < 500 ∧ status ≠ 409)
    (hmsg : body.message = some m) :
    (∀ j ∈ (processSyncItem net now token s item).syncQueue, j.id ≠ item.id) ∧
    (processSyncItem net now token s item).events =
      s.events ++ [⟨.error, item.entity, item.type, some m⟩] := by
  rw [processSyncItem_clientError net now token s item status body hmapped hresp
    hstatus.2.2 (by omega)]
  constructor
  · intro j hj
    simp only [notifySync, removeFromSyncQueue] at hj
    rw [if_neg (by simp [hdb])] at hj
    exact of_decide_eq_true (List.mem_filter.mp hj).2
  · simp only [notifySync, removeFromSyncQueue]
    rw [if_neg (by simp [hdb])]
    simp [hmsg]

/-- Witness for C6: a 422 validation answer for the queued task item. -/
theorem claim_C6_client_error_witness :
    (exState503.db = true ∧ (mapRequest exItemX).method ≠ "" ∧
      exNet422 exItemX = .httpErr 422 { message := some "Title is required" } ∧
      (400 ≤ 422 ∧ 422 < 500 ∧ 422 ≠ 409) ∧
      ({ message := some "Title is required" } : ServerBody).message =
        some "Title is required") ∧
    ((∀ j ∈ (processSyncItem exNet422 9 "t" exState503 exItemX).syncQueue,
        j.id ≠ exItemX.id) ∧
    (processSyncItem exNet422 9 "t" exState503 exItemX).events =
      exState503.events ++
        [⟨.error, exItemX.entity, exItemX.type, some "Title is required"⟩]) :=
  ⟨⟨rfl, by decide, rfl, by omega, rfl⟩,
    claim_C6_client_error exNet422 9 "t" exState503 exItemX 422
      { message := some "Title is required" } "Title is required" rfl (by decide)
      rfl (by omega) rfl⟩

/-- Claim C7 concerns the endpoint map for the full closed entity set,
but the switch in `processSyncItem` has cases only for `task` and
`transaction`: those are mapped exactly as the claim says (CREATE → POST
collection with the payload, UPDATE → PATCH `/\x7bid\x7d`, DELETE → DELETE
`/\x7bid\x7d` with no body), while `budget-limit`, `recurring-task` and
`user-preferences` fall through with an empty endpoint and method, so no
request is issued for them and the item is pushed into the retry path
instead. -/
theorem claim_C7_endpoint_map :
    mapRequest exBudgetItem = ⟨"", "", none⟩ ∧
    mapRequest exRecurringItem = ⟨"", "", none⟩ ∧
    mapRequest exPrefsItem = ⟨"", "", none⟩ ∧
    (processSyncItem exOkNet 0 "t" exStateB exBudgetItem).requests = [] ∧
    (processSyncItem exOkNet 0 "t" exStateB exBudgetItem).syncQueue =
      [bumpRetry exBudgetItem] ∧
    mapRequest exItemLow = ⟨"/api/tasks", "POST", some exData1⟩ ∧
    mapRequest exTaskUpd = ⟨"/api/tasks/e1", "PATCH", some exData1⟩ ∧
    mapRequest exTaskDel = ⟨"/api/tasks/e1", "DELETE", none⟩ ∧
    mapRequest exTransCre = ⟨"/api/budget/transactions", "POST", some exData1⟩ := by
  decide

/-- Claim C8: a drain request arriving while one is already in progress,
or while offline, or before the store is initialized, is a no-op: the
state — queue, cache, conflicts table and request log included — is
returned unchanged and no network request is issued. -/
theorem claim_C8_single_flight (net : SyncQueueItem → NetResponse)
    (now : Int) (token : String) (s : SyncState)
    (h : s.syncInProgress = true ∨ s.isOnline = false ∨ s.db = false) :
    processSyncQueue net now token s = s ∧
    (processSyncQueue net now token s).syncQueue = s.syncQueue ∧
    (processSyncQueue net now token s).cache = s.cache ∧
    (processSyncQueue net now token s).conflicts = s.conflicts ∧
    (processSyncQueue net now token s).requests = s.requests := by
  have h0 : processSyncQueue net now token s = s := by
    simp only [processSyncQueue]
    rcases h with h | h | h <;> simp [h]
  exact ⟨h0, by rw [h0], by rw [h0], by rw [h0], by rw [h0]⟩

/-- Witness for C8: a second drain request on the busy fixture state. -/
theorem claim_C8_single_flight_witness :
    (exStateBusy.syncInProgress = true ∨ exStateBusy.isOnline = false ∨
      exStateBusy.db = false) ∧
    (processSyncQueue exOkNet 0 "t" exStateBusy = exStateBusy ∧
    (processSyncQueue exOkNet 0 "t" exStateBusy).syncQueue = exStateBusy.syncQueue ∧
    (processSyncQueue exOkNet 0 "t" exStateBusy).cache = exStateBusy.cache ∧
    (processSyncQueue exOkNet 0 "t" exStateBusy).conflicts = exStateBusy.conflicts ∧
    (processSyncQueue exOkNet 0 "t" exStateBusy).requests = exStateBusy.requests) :=
  ⟨Or.inl rfl, claim_C8_single_flight exOkNet 0 "t" exStateBusy (Or.inl rfl)⟩

/-- Claim C9 is false at the TTL boundary: for an entry written at 0 with
the default 24-hour TTL, a read at exactly `now - writtenAt = ttl`
satisfies the claim's `now - writtenAt ≤ ttl`, yet returns absent — the
source's freshness test is the strict `now - writtenAt < ttl`. -/
theorem claim_C9_counterexample :
    ((86400000 : Int) - 0 ≤ 24 * 60 * 60 * 1000) ∧
    getFromCache .task "e1" 86400000
      (updateLocalCache .task exData1 "e1" 0 exState0) = none := by
  refine ⟨by omega, ?_⟩
  decide

/-- Claim C9 (amended): `getFromCache` returns the stored data when the
entry is present and strictly fresh (`now - writtenAt < ttl`) and absent
otherwise (missing entry, or `now - writtenAt ≥ ttl`); every entry
written by `updateLocalCache` carries the default TTL of 24 hours. -/
theorem claim_C9_amended (s : SyncState) (entity : Entity) (id : String)
    (now : Int) (e : CacheEntry) (d : EntityData)
    (hdb : s.db = true) :
    (s.cache.find? (fun e2 => e2.key == entity.str ++ "-" ++ id) = some e →
      getFromCache entity id now s =
        if now - e.timestamp < e.ttl then some e.data else none) ∧
    (s.cache.find? (fun e2 => e2.key == entity.str ++ "-" ++ id) = none →
      getFromCache entity id now s = none) ∧
    (updateLocalCache entity d id now s).cache.find?
        (fun e2 => e2.key == entity.str ++ "-" ++ id) =
      some ⟨entity.str ++ "-" ++ id, d, now, 24 * 60 * 60 * 1000,
        d.version.getD "1.0", if s.isOnline then some now else none⟩ := by
  refine ⟨?_, ?_, ?_⟩
  · intro hf
    simp only [getFromCache]
    rw [if_neg (by simp [hdb])]
    rw [hf]
  · intro hf
    simp only [getFromCache]
    rw [if_neg (by simp [hdb])]
    rw [hf]
  · simp only [updateLocalCache]
    rw [if_neg (by simp [hdb])]
    exact find?_putKeyed_eq CacheEntry.key _ s.cache (entity.str ++ "-" ++ id) rfl

/-- Witness for C9 (amended) at a concrete entity, id, entry and time. -/
theorem claim_C9_amended_witness :
    exState0.db = true ∧
    ((exState0.cache.find? (fun e2 => e2.key == Entity.task.str ++ "-" ++ "e1") =
        some exEntry →
      getFromCache .task "e1" 5 exState0 =
        if 5 - exEntry.timestamp < exEntry.ttl then some exEntry.data else none) ∧
    (exState0.cache.find? (fun e2 => e2.key == Entity.task.str ++ "-" ++ "e1") =
        none →
      getFromCache .task "e1" 5 exState0 = none) ∧
    (updateLocalCache .task exData1 "e1" 5 exState0).cache.find?
        (fun e2 => e2.key == Entity.task.str ++ "-" ++ "e1") =
      some ⟨Entity.task.str ++ "-" ++ "e1", exData1, 5, 24 * 60 * 60 * 1000,
        exData1.version.getD "1.0", if exState0.isOnline then some 5 else none⟩) :=
  ⟨rfl, claim_C9_amended exState0 .task "e1" 5 exEntry exData1 rfl⟩

theorem performOptimisticUpdate_db (entity : Entity) (operation : OpType)
    (data : EntityData) (localId : Option String) (now : Int) (rand : String)
    (s : SyncState) :
    ((performOptimisticUpdate entity operation data localId now rand s).2).db =
      s.db := by
  by_cases h : s.db
  · simp only [performOptimisticUpdate, addToSyncQueue, updateLocalCache]
    rw [if_neg (by simp [h]), if_neg (by simp [h])]
  · simp only [performOptimisticUpdate, addToSyncQueue, updateLocalCache]
    rw [if_pos (by simp [h]), if_pos (by simp [h])]

theorem performOptimisticUpdate_syncQueue (entity : Entity) (operation : OpType)
    (data : EntityData) (localId : Option String) (now : Int) (rand : String)
    (s : SyncState) (hdb : s.db = true) :
    ((performOptimisticUpdate entity operation data localId now rand s).2).syncQueue =
      putKeyed SyncQueueItem.id (enqueuedItem entity operation data localId now rand)
        s.syncQueue := by
  simp only [performOptimisticUpdate, addToSyncQueue, updateLocalCache]
  rw [if_neg (by simp [hdb]), if_neg (by simp [hdb])]
  rfl

/-- Claim C10 is false: two distinct apply calls in the same millisecond
with the same entity and operation generate the same queue id, so the
second enqueue overwrites the first — after the first call the queue
holds the first payload, after the second only the second payload. -/
theorem claim_C10_counterexample :
    ((performOptimisticUpdate .task .CREATE exData1 none 100 "r1"
        exState0).2).syncQueue.map SyncQueueItem.data = [exData1] ∧
    ((performOptimisticUpdate .task .CREATE exData2 none 100 "r2"
        (performOptimisticUpdate .task .CREATE exData1 none 100 "r1"
          exState0).2).2).syncQueue.map SyncQueueItem.data = [exData2] := by
  decide

/-- Claim C10 (amended): the queue item id is determined by (entityType,
operationKind, enqueue millisecond) alone. A second apply call whose id
triple differs leaves the first call's pending item intact in the queue;
a second call sharing entity, operation and millisecond produces the same
id and its enqueue replaces the first item, which is destroyed. -/
theorem claim_C10_amended (s : SyncState) (entity : Entity)
    (operation : OpType) (d1 : EntityData) (l1 : Option String) (now : Int)
    (r1 : String) (hdb : s.db = true) :
    (∀ (e2 : Entity) (o2 : OpType) (n2 : Int) (d2 : EntityData)
        (l2 : Option String) (r2 : String),
      queueItemId e2 o2 n2 ≠ queueItemId entity operation now →
      ((performOptimisticUpdate e2 o2 d2 l2 n2 r2
          (performOptimisticUpdate entity operation d1 l1 now r1 s).2).2).syncQueue.find?
          (fun j => j.id == queueItemId entity operation now) =
        some (enqueuedItem entity operation d1 l1 now r1)) ∧
    (∀ (d2 : EntityData) (l2 : Option String) (r2 : String),
      (∀ j ∈ s.syncQueue, j.id ≠ queueItemId entity operation now) →
      ((performOptimisticUpdate entity operation d2 l2 now r2
          (performOptimisticUpdate entity operation d1 l1 now r1 s).2).2).syncQueue =
        s.syncQueue ++ [enqueuedItem entity operation d2 l2 now r2]) := by
  have hdb1 : ((performOptimisticUpdate entity operation d1 l1 now r1 s).2).db = true :=
    (performOptimisticUpdate_db entity operation d1 l1 now r1 s).trans hdb
  constructor
  · intro e2 o2 n2 d2 l2 r2 hne
    rw [performOptimisticUpdate_syncQueue e2 o2 d2 l2 n2 r2 _ hdb1]
    rw [find?_putKeyed_ne SyncQueueItem.id (enqueuedItem e2 o2 d2 l2 n2 r2) _
      (queueItemId entity operation now) hne]
    rw [performOptimisticUpdate_syncQueue entity operation d1 l1 now r1 s hdb]
    exact find?_putKeyed_eq SyncQueueItem.id (enqueuedItem entity operation d1 l1 now r1)
      s.syncQueue (queueItemId entity operation now) rfl
  · intro d2 l2 r2 hfresh
    rw [performOptimisticUpdate_syncQueue entity operation d2 l2 now r2 _ hdb1]
    rw [performOptimisticUpdate_syncQueue entity operation d1 l1 now r1 s hdb]
    rw [putKeyed_fresh SyncQueueItem.id (enqueuedItem entity operation d1 l1 now r1)
      s.syncQueue hfresh]
    exact putKeyed_append_last SyncQueueItem.id
      (enqueuedItem entity operation d2 l2 now r2)
      (enqueuedItem entity operation d1 l1 now r1) s.syncQueue hfresh rfl

/-- Witness for C10 (amended): concrete first call on the fresh state. -/
theorem claim_C10_amended_witness :
    exState0.db = true ∧
    ((∀ (e2 : Entity) (o2 : OpType) (n2 : Int) (d2 : EntityData)
        (l2 : Option String) (r2 : String),
      queueItemId e2 o2 n2 ≠ queueItemId .task .CREATE 100 →
      ((performOptimisticUpdate e2 o2 d2 l2 n2 r2
          (performOptimisticUpdate .task .CREATE exData1 none 100 "r1"
            exState0).2).2).syncQueue.find?
          (fun j => j.id == queueItemId .task .CREATE 100) =
        some (enqueuedItem .task .CREATE exData1 none 100 "r1")) ∧
    (∀ (d2 : EntityData) (l2 : Option String) (r2 : String),
      (∀ j ∈ exState0.syncQueue, j.id ≠ queueItemId .task .CREATE 100) →
      ((performOptimisticUpdate .task .CREATE d2 l2 100 r2
          (performOptimisticUpdate .task .CREATE exData1 none 100 "r1"
            exState0).2).2).syncQueue =
        exState0.syncQueue ++ [enqueuedItem .task .CREATE d2 l2 100 r2])) :=
  ⟨rfl, claim_C10_amended exState0 .task .CREATE exData1 none 100 "r1" rfl⟩
